import Mathlib

set_option maxRecDepth 8000

/-!
Shallow embedding of the Azure Redis cache Ansible module
(lib/ansible/modules/cloud/azure/azure_rm_redis.py).

The module's reconciliation core is `AzureRMRedisCache.exec_module`
together with the provisioning wait `check_resource_created` and the
output formatter `populate_results`.  We embed them as pure Lean
functions over an explicit client oracle:

  - `Client` packages the outcomes of the remote calls: the initial
    `redis.get` (`get0`), the `redis.create(...).result()` outcome,
    the `redis.delete` outcome, and the sequence of resources returned
    by `redis.get` during the provisioning wait (`waitGet i` is the
    resource returned by the i-th polling get, counting from 1).
  - `exec_module` returns the results dictionary (or the failure the
    module raises) together with the list of mutating RPC calls it
    issued, in order.
  - The Python source at line 283 spells the create-branch guard
    `else if`; it is embedded as the `elif` it reads as.
  - Python exceptions are embedded as a sum: `ExecError.failRemote`
    is the self.fail call with message starting Failed with,
    `ExecError.failTimeout` is the self.fail call with the
    Waited-too-long message, and `ExecError.raised` is an exception
    propagating uncaught (a non-CloudError from the initial get).
  - The results dictionary is dynamically typed in Python, so its
    entries are a small value union `PyVal`; `PyVal.pyNone` is the
    initial None of every entry and `PyVal.pyEmptyDict` the initial
    `dict()` value of the state entry.
-/

/-- Tags and redis-configuration dictionaries: string-to-string maps. -/
abbrev Tags := List (String × String)

/-- The SDK Sku value (azure.mgmt.redis.models.Sku). -/
structure Sku where
  name : String
  family : String
  capacity : Option Int
  deriving DecidableEq

/-- A remote Redis resource as returned by the management SDK; every
attribute may be absent (None). -/
structure RedisResource where
  id : Option String
  name : Option String
  location : Option String
  tags : Option Tags
  provisioning_state : Option String
  host_name : Option String
  redis_version : Option String
  sku : Option Sku
  enable_non_ssl_port : Option Bool
  redis_configuration : Option Tags
  access_keys : Option String
  port : Option Int
  ssl_port : Option Int
  deriving DecidableEq

/-- The requested existence, the module parameter `state`. -/
inductive ResourceState where
  | present
  | absent
  deriving DecidableEq

/-- The module parameters (module_arg_spec plus the check-mode flag). -/
structure ModuleParams where
  name : String
  state : ResourceState
  location : Option String
  resource_group_name : String
  tags : Option Tags
  sku_name : String
  sku_family : String
  sku_capacity : Option Int
  redis_configuration : Tags
  enable_nonssl_port : Bool
  shard_count : Int
  subnet_id : String
  static_ip : String
  check_mode : Bool
  deriving DecidableEq

/-- Outcome of the initial `redis.get` call: a resource, a CloudError
(with a flag recording whether it is a not-found error; the source
catches every CloudError alike), or a non-CloudError exception. -/
inductive GetOutcome where
  | found (r : RedisResource)
  | cloudError (notFound : Bool) (msg : String)
  | otherError (msg : String)
  deriving DecidableEq

/-- The RedisCreateParameters value handed to `redis.create`. -/
structure RedisCreateParameters where
  location : Option String
  sku : Sku
  tags : Option Tags
  redis_configuration : Option Tags
  enable_non_ssl_port : Option Bool
  tenant_settings : Option Tags
  shard_count : Option Int
  subnet_id : Option String
  static_ip : Option String
  deriving DecidableEq

/-- A mutating RPC issued by the module. -/
inductive RpcCall where
  | createCall (rg : String) (name : String) (params : RedisCreateParameters)
  | deleteCall (rg : String) (name : String)
  deriving DecidableEq

/-- The failures exec_module can terminate with: the two distinct
self.fail call sites, and an uncaught exception propagating. -/
inductive ExecError where
  | failRemote (msg : String)
  | failTimeout
  | raised (msg : String)
  deriving DecidableEq

/-- The client oracle: outcomes of the remote calls for one invocation. -/
structure Client where
  get0 : GetOutcome
  createResult : Except String RedisResource
  deleteResult : Except String Unit
  waitGet : Nat → RedisResource

/-- Dynamically typed value of a results-dictionary entry. -/
inductive PyVal where
  | pyNone
  | pyStr (s : String)
  | pyBool (b : Bool)
  | pyInt (n : Int)
  | pyTags (t : Tags)
  | pySku (s : Sku)
  | pyEmptyDict
  deriving DecidableEq

/-- The results dictionary built in __init__ and returned by
exec_module. -/
structure Results where
  id : PyVal
  name : PyVal
  location : PyVal
  tags : PyVal
  provisioning_state : PyVal
  accessKeys : PyVal
  hostname : PyVal
  redis_version : PyVal
  sku : PyVal
  enable_nonssl_port : PyVal
  redis_configuration : PyVal
  port : PyVal
  ssl_port : PyVal
  changed : PyVal
  state : PyVal
  deriving DecidableEq

/-- The initial results dictionary: every entry None, state an empty dict. -/
def initResults : Results :=
  { id := PyVal.pyNone, name := PyVal.pyNone, location := PyVal.pyNone,
    tags := PyVal.pyNone, provisioning_state := PyVal.pyNone,
    accessKeys := PyVal.pyNone, hostname := PyVal.pyNone,
    redis_version := PyVal.pyNone, sku := PyVal.pyNone,
    enable_nonssl_port := PyVal.pyNone, redis_configuration := PyVal.pyNone,
    port := PyVal.pyNone, ssl_port := PyVal.pyNone,
    changed := PyVal.pyNone, state := PyVal.pyEmptyDict }

/-- Lift an optional string attribute into a dictionary value. -/
def optStr : Option String → PyVal
  | none => PyVal.pyNone
  | some s => PyVal.pyStr s

/-- Lift an optional int attribute into a dictionary value. -/
def optInt : Option Int → PyVal
  | none => PyVal.pyNone
  | some n => PyVal.pyInt n

/-- Lift an optional tags attribute into a dictionary value. -/
def optTags : Option Tags → PyVal
  | none => PyVal.pyNone
  | some t => PyVal.pyTags t

/-- Lift an optional sku attribute into a dictionary value. -/
def optSku : Option Sku → PyVal
  | none => PyVal.pyNone
  | some s => PyVal.pySku s

/-- Embedding of AzureRMRedisCache.populate_results: copies attributes of
self.redis_cache into the results dictionary.  The source assigns
results of enable_nonssl_port from self.redis_cache.ssl_port, and does
not touch the port, ssl_port or redis_configuration entries. -/
def populate_results (res : Results) (cache : RedisResource) : Results :=
  { res with
    id := optStr cache.id,
    name := optStr cache.name,
    location := optStr cache.location,
    tags := optTags cache.tags,
    provisioning_state := optStr cache.provisioning_state,
    hostname := optStr cache.host_name,
    redis_version := optStr cache.redis_version,
    sku := optSku cache.sku,
    enable_nonssl_port := optInt cache.ssl_port,
    accessKeys := optStr cache.access_keys }

/-- Embedding of the while loop of check_resource_created.  `remaining`
is 179 minus the current count, so that the count-equals-180 exit,
tested in the source after the get and the increment, is the
`remaining = 0` branch.  Returns (loop result, final self.redis_cache,
number of polling gets issued). -/
def check_resource_created_loop (waitGet : Nat → RedisResource)
    (remaining : Nat) (cache : RedisResource) (count : Nat) :
    Bool × RedisResource × Nat :=
  if cache.provisioning_state = some "Succeeded" then
    (true, cache, count)
  else
    let cache2 := waitGet (count + 1)
    match remaining with
    | 0 => (false, cache2, count + 1)
    | Nat.succ r => check_resource_created_loop waitGet r cache2 (count + 1)

/-- Embedding of AzureRMRedisCache.check_resource_created: poll get
until provisioning_state is Succeeded, giving up after the count
reaches 180. -/
def check_resource_created (waitGet : Nat → RedisResource)
    (cache : RedisResource) : Bool × RedisResource × Nat :=
  check_resource_created_loop waitGet 179 cache 0

/-- Embedding of the parameters both create call sites build: location,
sku and tags are propagated, every other field is passed as None. -/
def createParams (p : ModuleParams) : RedisCreateParameters :=
  { location := p.location,
    sku := { name := p.sku_name, family := p.sku_family, capacity := p.sku_capacity },
    tags := p.tags,
    redis_configuration := none,
    enable_non_ssl_port := none,
    tenant_settings := none,
    shard_count := none,
    subnet_id := none,
    static_ip := none }

deriving instance DecidableEq for Except

/-- Outcome of one exec_module invocation: the returned results
dictionary or the failure raised, plus the mutating RPC calls issued. -/
structure ExecOutcome where
  result : Except ExecError Results
  calls : List RpcCall
  deriving DecidableEq

/-- Embedding of the body of exec_module after the initial get:
`to_update` records whether the initial get found the resource.  The
branch structure mirrors the source: the check-mode block (whose
absent-and-not-found case falls through to the live code), the delete
branch, the update branch, and the unconditional create block with the
provisioning wait. -/
def exec_module_body (p : ModuleParams) (deleteResult : Except String Unit)
    (createResult : Except String RedisResource)
    (waitGet : Nat → RedisResource) (to_update : Bool) : ExecOutcome :=
  if p.check_mode = true ∧ p.state = ResourceState.absent ∧ to_update = true then
    { result := Except.ok { initResults with
        changed := PyVal.pyBool true, state := PyVal.pyStr "absent" },
      calls := [] }
  else if p.check_mode = true ∧ p.state = ResourceState.present ∧ to_update = true then
    { result := Except.ok { initResults with
        changed := PyVal.pyBool true, state := PyVal.pyStr "present" },
      calls := [] }
  else if p.check_mode = true ∧ p.state = ResourceState.present then
    { result := Except.ok { initResults with
        changed := PyVal.pyBool false, state := PyVal.pyStr "present",
        name := PyVal.pyStr p.name },
      calls := [] }
  else if p.state = ResourceState.absent ∧ to_update = true then
    match deleteResult with
    | Except.error exc =>
      { result := Except.error (ExecError.failRemote ("Failed with " ++ exc)),
        calls := [RpcCall.deleteCall p.resource_group_name p.name] }
    | Except.ok _ =>
      { result := Except.ok { initResults with
          changed := PyVal.pyBool true, state := PyVal.pyStr "absent" },
        calls := [RpcCall.deleteCall p.resource_group_name p.name] }
  else if p.state = ResourceState.present ∧ to_update = true then
    match createResult with
    | Except.error exc =>
      { result := Except.error (ExecError.failRemote ("Failed with " ++ exc)),
        calls := [RpcCall.createCall p.resource_group_name p.name (createParams p)] }
    | Except.ok r =>
      { result := Except.ok (populate_results { initResults with
          changed := PyVal.pyBool true, state := PyVal.pyStr "present" } r),
        calls := [RpcCall.createCall p.resource_group_name p.name (createParams p)] }
  else
    match createResult with
    | Except.error exc =>
      { result := Except.error (ExecError.failRemote ("Failed with " ++ exc)),
        calls := [RpcCall.createCall p.resource_group_name p.name (createParams p)] }
    | Except.ok r =>
      let w := check_resource_created waitGet r
      if w.1 = false then
        { result := Except.error ExecError.failTimeout,
          calls := [RpcCall.createCall p.resource_group_name p.name (createParams p)] }
      else
        { result := Except.ok (populate_results { initResults with
            changed := PyVal.pyBool true, state := PyVal.pyStr "present" } w.2.1),
          calls := [RpcCall.createCall p.resource_group_name p.name (createParams p)] }

/-- Embedding of AzureRMRedisCache.exec_module.  The initial get is
wrapped in try-except CloudError in the source: a found resource sets
to_update, any CloudError is absorbed (to_update stays False), and any
other exception propagates uncaught before any mutating call. -/
def exec_module (p : ModuleParams) (c : Client) : ExecOutcome :=
  match c.get0 with
  | GetOutcome.otherError msg =>
    { result := Except.error (ExecError.raised msg), calls := [] }
  | GetOutcome.found _ =>
    exec_module_body p c.deleteResult c.createResult c.waitGet true
  | GetOutcome.cloudError _ _ =>
    exec_module_body p c.deleteResult c.createResult c.waitGet false

/-- A resource with every attribute absent. -/
def baseResource : RedisResource :=
  { id := none, name := none, location := none, tags := none,
    provisioning_state := none, host_name := none, redis_version := none,
    sku := none, enable_non_ssl_port := none, redis_configuration := none,
    access_keys := none, port := none, ssl_port := none }

/-- A resource whose provisioning state is Running. -/
def runningResource : RedisResource :=
  { baseResource with provisioning_state := some "Running" }

/-- A resource whose provisioning state is Succeeded. -/
def succeededResource : RedisResource :=
  { baseResource with provisioning_state := some "Succeeded" }

/-- Mock polling sequence: the first K gets report Running, every later
get reports Succeeded. -/
def mockGet (K : Nat) : Nat → RedisResource :=
  fun i => if i ≤ K then runningResource else succeededResource

/-- A concrete desired spec asking for absence. -/
def pAbsent : ModuleParams :=
  { name := "cache1", state := ResourceState.absent, location := some "westus",
    resource_group_name := "rg1", tags := none, sku_name := "Premium",
    sku_family := "P", sku_capacity := some 1,
    redis_configuration := [("maxmemory-policy", "allkeys-lru")],
    enable_nonssl_port := false, shard_count := 2, subnet_id := "subnet1",
    static_ip := "192.168.0.5", check_mode := false }

/-- The same spec asking for presence. -/
def pPresent : ModuleParams :=
  { pAbsent with state := ResourceState.present }

/-- The absent spec under check mode. -/
def pAbsentCheck : ModuleParams :=
  { pAbsent with check_mode := true }

/-- The present spec under check mode. -/
def pPresentCheck : ModuleParams :=
  { pPresent with check_mode := true }

/-- A client whose initial get raises a not-found CloudError and whose
remote calls all succeed. -/
def cNotFound : Client :=
  { get0 := GetOutcome.cloudError true "ResourceNotFound",
    createResult := Except.ok succeededResource,
    deleteResult := Except.ok (),
    waitGet := fun _ => succeededResource }

/-- A client whose initial get finds the resource. -/
def cFound : Client :=
  { cNotFound with get0 := GetOutcome.found succeededResource }

/-- A client whose initial get fails with a CloudError that is not a
not-found error. -/
def cForbidden : Client :=
  { cNotFound with get0 := GetOutcome.cloudError false "AuthorizationFailed" }

/-- A client whose initial get fails with a non-CloudError exception. -/
def cRaised : Client :=
  { cNotFound with get0 := GetOutcome.otherError "ConnectionError" }

/-- A client for the timeout scenario: initial get not found, create
succeeds with the given resource, polling follows the given sequence. -/
def timeoutClient (waitGet : Nat → RedisResource) (cache : RedisResource) : Client :=
  { get0 := GetOutcome.cloudError true "ResourceNotFound",
    createResult := Except.ok cache,
    deleteResult := Except.ok (),
    waitGet := waitGet }

/-- Every branch of the exec_module body issues at most one mutating
call. -/
theorem exec_module_body_calls_le (p : ModuleParams) (d : Except String Unit)
    (cr : Except String RedisResource) (wg : Nat → RedisResource) (u : Bool) :
    (exec_module_body p d cr wg u).calls.length ≤ 1 := by
  unfold exec_module_body
  repeat' split
  all_goals dsimp only
  all_goals try split
  all_goals simp

/-- Against the mock sequence with K at most 178, the wait loop started
at a not-yet-succeeded resource with the count invariant succeeds at
count K + 1. -/
theorem loop_mock_succeeds (K : Nat) (hK : K ≤ 178) :
    ∀ rem count, rem + count = 179 → count ≤ K →
      check_resource_created_loop (mockGet K) rem runningResource count =
        (true, succeededResource, K + 1) := by
  intro rem
  induction rem with
  | zero =>
    intro count h1 h2
    omega
  | succ r ih =>
    intro count h1 h2
    rw [check_resource_created_loop,
      if_neg (show ¬(runningResource.provisioning_state = some "Succeeded") by decide)]
    show check_resource_created_loop (mockGet K) r (mockGet K (count + 1)) (count + 1) =
      (true, succeededResource, K + 1)
    by_cases hc : count + 1 ≤ K
    · have hm : mockGet K (count + 1) = runningResource := by
        simp [mockGet, hc]
      rw [hm]
      exact ih (count + 1) (by omega) hc
    · have hck : count = K := by omega
      subst hck
      have hm : mockGet count (count + 1) = succeededResource := by
        simp [mockGet]
      rw [hm, check_resource_created_loop]
      rw [if_pos (show succeededResource.provisioning_state = some "Succeeded" by decide)]

/-- When no polling get ever reports Succeeded, the wait loop started
at a not-yet-succeeded resource with the count invariant runs the full
schedule and fails at count 180. -/
theorem loop_never_succeeds (waitGet : Nat → RedisResource)
    (h : ∀ i, (waitGet i).provisioning_state ≠ some "Succeeded") :
    ∀ rem cache count, cache.provisioning_state ≠ some "Succeeded" →
      rem + count = 179 →
      check_resource_created_loop waitGet rem cache count =
        (false, waitGet 180, 180) := by
  intro rem
  induction rem with
  | zero =>
    intro cache count hc h1
    rw [check_resource_created_loop, if_neg hc]
    have h179 : count = 179 := by omega
    subst h179
    rfl
  | succ r ih =>
    intro cache count hc h1
    rw [check_resource_created_loop, if_neg hc]
    exact ih (waitGet (count + 1)) (count + 1) (h (count + 1)) (by omega)

/-- The wait loop issues at most one more get than its remaining
budget. -/
theorem loop_count_le (waitGet : Nat → RedisResource) :
    ∀ rem cache count,
      (check_resource_created_loop waitGet rem cache count).2.2 ≤
        count + rem + 1 := by
  intro rem
  induction rem with
  | zero =>
    intro cache count
    rw [check_resource_created_loop]
    by_cases h : cache.provisioning_state = some "Succeeded"
    · rw [if_pos h]
      show count ≤ count + 0 + 1
      omega
    · rw [if_neg h]
  | succ r ih =>
    intro cache count
    rw [check_resource_created_loop]
    by_cases h : cache.provisioning_state = some "Succeeded"
    · rw [if_pos h]
      show count ≤ count + (r + 1) + 1
      omega
    · rw [if_neg h]
      have h2 := ih (waitGet (count + 1)) (count + 1)
      show (check_resource_created_loop waitGet r (waitGet (count + 1)) (count + 1)).2.2 ≤
        count + (r + 1) + 1
      omega

/-- C1: the claim states that with desiredExistence Absent and an
initial get reporting NotFound, reconcile performs no mutating RPC and
returns changed false with final existence Absent.  Evaluating
exec_module at exactly that input shows the source instead falls
through its delete and update branches into the unconditional create
block: it issues one create call and returns changed true with state
present. -/
theorem c1_absent_notfound_issues_create :
    pAbsent.state = ResourceState.absent ∧
    pAbsent.check_mode = false ∧
    cNotFound.get0 = GetOutcome.cloudError true "ResourceNotFound" ∧
    (exec_module pAbsent cNotFound).calls =
      [RpcCall.createCall "rg1" "cache1" (createParams pAbsent)] ∧
    (exec_module pAbsent cNotFound).result =
      Except.ok (populate_results { initResults with
        changed := PyVal.pyBool true, state := PyVal.pyStr "present" }
        succeededResource) :=
  ⟨rfl, rfl, rfl, by decide, by decide⟩

/-- C2: the claim states that check mode issues no create or delete in
any branch and returns the same changed value as the live path.
Evaluating exec_module shows two violations: with state absent and the
resource not found, the check-mode block has no matching branch, so
the invocation falls through to the live create block and issues a
real create call; and with state present and the resource not found,
check mode returns changed false while the live path returns changed
true. -/
theorem c2_check_mode_issues_create_and_changed_mismatch :
    pAbsentCheck.check_mode = true ∧
    (exec_module pAbsentCheck cNotFound).calls =
      [RpcCall.createCall "rg1" "cache1" (createParams pAbsentCheck)] ∧
    pPresentCheck.check_mode = true ∧
    (exec_module pPresentCheck cNotFound).result =
      Except.ok { initResults with
        changed := PyVal.pyBool false,
        state := PyVal.pyStr "present", name := PyVal.pyStr "cache1" } ∧
    (exec_module pPresent cNotFound).result =
      Except.ok (populate_results { initResults with
        changed := PyVal.pyBool true, state := PyVal.pyStr "present" }
        succeededResource) :=
  ⟨rfl, by decide, rfl, by decide, by decide⟩

/-- C3: the claim states that every create call carries the full
desired spec, including redis_configuration, enable_nonssl_port,
shard_count, subnet_id and static_ip.  Evaluating both create paths
(present and found, present and not found) shows each passes the same
RedisCreateParameters value, and that value carries None in all five
of those fields although the desired spec holds concrete values. -/
theorem c3_create_params_drop_desired_fields :
    (exec_module pPresent cFound).calls =
      [RpcCall.createCall "rg1" "cache1" (createParams pPresent)] ∧
    (exec_module pPresent cNotFound).calls =
      [RpcCall.createCall "rg1" "cache1" (createParams pPresent)] ∧
    pPresent.redis_configuration = [("maxmemory-policy", "allkeys-lru")] ∧
    pPresent.shard_count = 2 ∧
    pPresent.subnet_id = "subnet1" ∧
    pPresent.static_ip = "192.168.0.5" ∧
    (createParams pPresent).redis_configuration = none ∧
    (createParams pPresent).enable_non_ssl_port = none ∧
    (createParams pPresent).shard_count = none ∧
    (createParams pPresent).subnet_id = none ∧
    (createParams pPresent).static_ip = none :=
  ⟨by decide, by decide, rfl, rfl, rfl, rfl, rfl, rfl, rfl, rfl, rfl⟩

/-- C4 (counterexample): the claim asserts success with K + 1 gets for
every K below 180, but at K = 179 the count-equals-180 exit fires
right after the 180th get, before its Succeeded result is examined, so
the wait makes 180 gets and reports failure. -/
theorem c4_k179_wait_fails :
    check_resource_created (mockGet 179) runningResource =
      (false, succeededResource, 180) := by decide

/-- C4 (amended): for every K below 179, if the create result is not
yet Succeeded and the polling gets report Running for the first K
calls and Succeeded on the next, the wait issues exactly K + 1 gets
and returns successfully. -/
theorem c4_wait_succeeds_after_k_plus_one (K : Nat) (hK : K < 179) :
    check_resource_created (mockGet K) runningResource =
      (true, succeededResource, K + 1) := by
  unfold check_resource_created
  exact loop_mock_succeeds K (by omega) 179 0 rfl (Nat.zero_le K)

/-- C4 (witness): the amended statement at K = 3. -/
theorem c4_wait_witness :
    3 < 179 ∧
    check_resource_created (mockGet 3) runningResource =
      (true, succeededResource, 4) :=
  ⟨by decide, c4_wait_succeeds_after_k_plus_one 3 (by decide)⟩

/-- C5: when no polling get ever reports Succeeded and the create
result is not already Succeeded, the wait makes exactly 180 gets and
fails; exec_module surfaces this as the timeout failure, a constructor
distinct from the remote-call failure. -/
theorem c5_wait_timeout_after_180 (waitGet : Nat → RedisResource)
    (cache : RedisResource)
    (h : ∀ i, (waitGet i).provisioning_state ≠ some "Succeeded")
    (hc : cache.provisioning_state ≠ some "Succeeded") :
    check_resource_created waitGet cache = (false, waitGet 180, 180) ∧
    (exec_module pPresent (timeoutClient waitGet cache)).result =
      Except.error ExecError.failTimeout ∧
    (∀ msg, ExecError.failTimeout ≠ ExecError.failRemote msg) := by
  have hwait : check_resource_created waitGet cache = (false, waitGet 180, 180) := by
    unfold check_resource_created
    exact loop_never_succeeds waitGet h 179 cache 0 hc rfl
  refine ⟨hwait, ?_, fun msg hne => by cases hne⟩
  show (exec_module pPresent (timeoutClient waitGet cache)).result = _
  simp [exec_module, exec_module_body, timeoutClient, pPresent, pAbsent, hwait]

/-- A Running resource has not succeeded. -/
theorem runningResource_not_succeeded :
    runningResource.provisioning_state ≠ some "Succeeded" := by decide

/-- C5 (witness): the timeout statement with every poll reporting
Running. -/
theorem c5_wait_timeout_witness :
    check_resource_created (fun _ => runningResource) runningResource =
      (false, (fun _ : Nat => runningResource) 180, 180) ∧
    (exec_module pPresent
      (timeoutClient (fun _ => runningResource) runningResource)).result =
      Except.error ExecError.failTimeout ∧
    (∀ msg, ExecError.failTimeout ≠ ExecError.failRemote msg) :=
  c5_wait_timeout_after_180 (fun _ => runningResource) runningResource
    (fun _ => runningResource_not_succeeded) runningResource_not_succeeded

/-- C6 (counterexample): the claim asserts that any initial-get failure
other than not-found terminates the invocation with a remote-call
failure and no mutating call.  The source catches every CloudError
alike: with a non-not-found CloudError (an authorization failure) and
state present, exec_module proceeds as if the resource were absent,
issues a create call and returns successfully. -/
theorem c6_non_notfound_cloud_error_absorbed :
    cForbidden.get0 = GetOutcome.cloudError false "AuthorizationFailed" ∧
    (exec_module pPresent cForbidden).calls =
      [RpcCall.createCall "rg1" "cache1" (createParams pPresent)] ∧
    (exec_module pPresent cForbidden).result =
      Except.ok (populate_results { initResults with
        changed := PyVal.pyBool true, state := PyVal.pyStr "present" }
        succeededResource) :=
  ⟨rfl, by decide, by decide⟩

/-- C6 (amended): only a non-CloudError exception from the initial get
terminates the invocation, propagating uncaught with no mutating call
issued; every CloudError, not-found or otherwise, is absorbed and
drives branch selection exactly as a not-found does. -/
theorem c6_only_non_cloud_errors_propagate (p : ModuleParams) (c : Client)
    (msg : String) (h : c.get0 = GetOutcome.otherError msg) :
    exec_module p c =
      { result := Except.error (ExecError.raised msg), calls := [] } ∧
    (∀ nf nf2 m m2,
      exec_module p { c with get0 := GetOutcome.cloudError nf m } =
        exec_module p { c with get0 := GetOutcome.cloudError nf2 m2 }) := by
  constructor
  · unfold exec_module
    rw [h]
  · intro nf nf2 m m2
    rfl

/-- C6 (witness): the amended statement at a concrete raised
exception. -/
theorem c6_propagation_witness :
    exec_module pPresent cRaised =
      { result := Except.error (ExecError.raised "ConnectionError"), calls := [] } :=
  (c6_only_non_cloud_errors_propagate pPresent cRaised "ConnectionError" rfl).1

/-- C7: for every desired spec and every client behaviour, one
invocation of exec_module issues at most one mutating call. -/
theorem c7_at_most_one_mutating_call (p : ModuleParams) (c : Client) :
    (exec_module p c).calls.length ≤ 1 := by
  unfold exec_module
  cases hg : c.get0 with
  | otherError msg => simp
  | found r =>
    exact exec_module_body_calls_le p c.deleteResult c.createResult c.waitGet true
  | cloudError nf m =>
    exact exec_module_body_calls_le p c.deleteResult c.createResult c.waitGet false

/-- C8: with desiredExistence Absent, check mode off, an initial get
that finds the resource and a delete that completes, exec_module
issues exactly one delete call and returns changed true with state
absent and every snapshot entry still at its initial None. -/
theorem c8_absent_found_deletes (p : ModuleParams) (c : Client)
    (r : RedisResource) (h1 : p.state = ResourceState.absent)
    (h2 : p.check_mode = false) (h3 : c.get0 = GetOutcome.found r)
    (h4 : c.deleteResult = Except.ok ()) :
    exec_module p c =
      { result := Except.ok { initResults with
          changed := PyVal.pyBool true, state := PyVal.pyStr "absent" },
        calls := [RpcCall.deleteCall p.resource_group_name p.name] } := by
  unfold exec_module
  rw [h3]
  show exec_module_body p c.deleteResult c.createResult c.waitGet true = _
  unfold exec_module_body
  rw [if_neg (by simp [h2]), if_neg (by simp [h2]), if_neg (by simp [h2]),
    if_pos (show p.state = ResourceState.absent ∧ (true : Bool) = true from ⟨h1, rfl⟩)]
  rw [h4]

/-- C8 (witness): the delete statement at the concrete absent spec and
found client. -/
theorem c8_absent_found_deletes_witness :
    exec_module pAbsent cFound =
      { result := Except.ok { initResults with
          changed := PyVal.pyBool true, state := PyVal.pyStr "absent" },
        calls := [RpcCall.deleteCall "rg1" "cache1"] } :=
  c8_absent_found_deletes pAbsent cFound succeededResource rfl rfl rfl rfl

/-- A concrete post-wait snapshot: non-ssl port disabled, ssl port
6380. -/
def snapC9 : RedisResource :=
  { baseResource with
    name := some "cache1",
    provisioning_state := some "Succeeded",
    host_name := some "cache1.redis.cache.windows.net",
    enable_non_ssl_port := some false,
    port := some 6379,
    ssl_port := some 6380 }

/-- C9: the claim states that every formatted output entry equals the
corresponding snapshot field, naming enable_nonssl_port and hostname.
Evaluating populate_results shows the enable_nonssl_port entry is
filled from the snapshot ssl_port attribute (6380) instead of its
enable_non_ssl_port attribute (false), contradicting the module RETURN
documentation; hostname is mapped correctly, and absent attributes map
to None without failing. -/
theorem c9_enable_nonssl_port_mapped_from_ssl_port :
    snapC9.enable_non_ssl_port = some false ∧
    snapC9.ssl_port = some 6380 ∧
    (populate_results initResults snapC9).enable_nonssl_port =
      PyVal.pyInt 6380 ∧
    PyVal.pyInt 6380 ≠ PyVal.pyBool false ∧
    (populate_results initResults snapC9).hostname =
      PyVal.pyStr "cache1.redis.cache.windows.net" ∧
    (populate_results initResults baseResource).hostname = PyVal.pyNone ∧
    (populate_results initResults baseResource).enable_nonssl_port =
      PyVal.pyNone :=
  ⟨rfl, rfl, rfl, by decide, rfl, rfl, rfl⟩

/-- C10: for every sequence of polled resources the wait issues at most
180 gets, and when the create result itself already reports Succeeded
the first loop test exits at once with zero gets. -/
theorem c10_wait_call_bound (waitGet : Nat → RedisResource)
    (cache : RedisResource) :
    (check_resource_created waitGet cache).2.2 ≤ 180 ∧
    (cache.provisioning_state = some "Succeeded" →
      check_resource_created waitGet cache = (true, cache, 0)) := by
  constructor
  · have h := loop_count_le waitGet 179 cache 0
    unfold check_resource_created
    omega
  · intro h
    unfold check_resource_created
    rw [check_resource_created_loop, if_pos h]

/-- C10 (witness): the bound and the zero-get exit at a create result
already Succeeded. -/
theorem c10_wait_call_bound_witness :
    (check_resource_created (fun _ => runningResource) succeededResource).2.2 ≤ 180 ∧
    check_resource_created (fun _ => runningResource) succeededResource =
      (true, succeededResource, 0) :=
  ⟨(c10_wait_call_bound (fun _ => runningResource) succeededResource).1,
    (c10_wait_call_bound (fun _ => runningResource) succeededResource).2 (by decide)⟩
